import Mathlib

/-!
Verification of the task-lifecycle coordinator of the deepfocal frontend
(`src/contexts/TaskContext.jsx`, the `TaskProvider` component, together with
the `handleStartAnalysis` caller in the premium dashboard).

The JavaScript module keeps three pieces of React state — `runningTasks`
(a `Map` from app id to task record), `taskResults` (a `Map` from app id to
the last terminal payload) and `globalLoading` (a boolean) — and mutates
them from `startTask`, the per-task polling loop `pollTaskStatus`, and the
terminal handlers `handleTaskSuccess` / `handleTaskFailure` /
`handleTaskTimeout`.  `window.dispatchEvent` calls are modelled as an
explicit list of emitted events, `setTimeout` as an explicit scheduling
output, and the two HTTP round trips (the submit POST and the status GET)
as inputs to the transition functions.

JavaScript `Map`s are embedded as association lists with `Map.set` /
`Map.delete` / `Map.get` / `Map.has` / `Map.size` semantics.  Numbers that
the code guards with `Number.isFinite` are embedded as `Option ℚ` /
`Option ℤ`: `some` is a finite parse result, `none` stands for an absent
field or a parse that produced NaN/Infinity.  String truthiness (`x || y`)
is embedded by `jsOrS`, which treats only the empty string and an absent
value as falsy, exactly as JavaScript does for string-valued fields.
`toLowerCase`/`toUpperCase` are embedded for the ASCII range, which covers
every status string the module compares against.
-/

/-- ASCII lower-casing of one character, the fragment of JavaScript
`String.prototype.toLowerCase` relevant to the status strings compared by
the module. -/
def lowerChar (c : Char) : Char :=
  if c = 'A' then 'a' else if c = 'B' then 'b' else if c = 'C' then 'c' else
  if c = 'D' then 'd' else if c = 'E' then 'e' else if c = 'F' then 'f' else
  if c = 'G' then 'g' else if c = 'H' then 'h' else if c = 'I' then 'i' else
  if c = 'J' then 'j' else if c = 'K' then 'k' else if c = 'L' then 'l' else
  if c = 'M' then 'm' else if c = 'N' then 'n' else if c = 'O' then 'o' else
  if c = 'P' then 'p' else if c = 'Q' then 'q' else if c = 'R' then 'r' else
  if c = 'S' then 's' else if c = 'T' then 't' else if c = 'U' then 'u' else
  if c = 'V' then 'v' else if c = 'W' then 'w' else if c = 'X' then 'x' else
  if c = 'Y' then 'y' else if c = 'Z' then 'z' else c

/-- ASCII upper-casing of one character (JavaScript `toUpperCase` on the
status strings used by `getStatusMessage`). -/
def upperChar (c : Char) : Char :=
  if c = 'a' then 'A' else if c = 'b' then 'B' else if c = 'c' then 'C' else
  if c = 'd' then 'D' else if c = 'e' then 'E' else if c = 'f' then 'F' else
  if c = 'g' then 'G' else if c = 'h' then 'H' else if c = 'i' then 'I' else
  if c = 'j' then 'J' else if c = 'k' then 'K' else if c = 'l' then 'L' else
  if c = 'm' then 'M' else if c = 'n' then 'N' else if c = 'o' then 'O' else
  if c = 'p' then 'P' else if c = 'q' then 'Q' else if c = 'r' then 'R' else
  if c = 's' then 'S' else if c = 't' then 'T' else if c = 'u' then 'U' else
  if c = 'v' then 'V' else if c = 'w' then 'W' else if c = 'x' then 'X' else
  if c = 'y' then 'Y' else if c = 'z' then 'Z' else c

/-- JavaScript `s.toLowerCase()` for ASCII strings. -/
def jsLower (s : String) : String := String.mk (s.data.map lowerChar)

/-- JavaScript `s.toUpperCase()` for ASCII strings. -/
def jsUpper (s : String) : String := String.mk (s.data.map upperChar)

/-- JavaScript `a || b` where `a` is a possibly-absent string: `undefined`,
`null` and the empty string are falsy, every other string is returned
unchanged. -/
def jsOrS (a : Option String) (b : String) : String :=
  match a with
  | none => b
  | some s => if s = "" then b else s

/-- JavaScript `q || 0` on a finite number: only `0` is falsy, so on the
finite rationals stored by the module this is the identity. -/
def jsOrQ (q : ℚ) (d : ℚ) : ℚ := if q = 0 then d else q

namespace AList

/-- JavaScript `Map.prototype.get`: value of the first (unique) entry for
the key, if any. -/
def get (k : String) : List (String × α) → Option α
  | [] => none
  | (k', v) :: t => if k' = k then some v else get k t

/-- JavaScript `Map.prototype.set`: replace the entry in place when the key
is present, otherwise append a new entry at the end. -/
def set (k : String) (v : α) : List (String × α) → List (String × α)
  | [] => [(k, v)]
  | (k', v') :: t => if k' = k then (k, v) :: t else (k', v') :: set k v t

/-- JavaScript `Map.prototype.delete`: remove the entry for the key. -/
def del (k : String) : List (String × α) → List (String × α)
  | [] => []
  | (k', v) :: t => if k' = k then del k t else (k', v) :: del k t

/-- JavaScript `Map.prototype.has`. -/
def has (k : String) (l : List (String × α)) : Bool := (get k l).isSome

/-- Keys are pairwise distinct, the structural invariant of a JavaScript
`Map`. -/
def NodupKeys (l : List (String × α)) : Prop := (l.map Prod.fst).Nodup

end AList

/-- One entry of the `runningTasks` map, as built by `startTask` and
mutated by the polling loop.  `startTime` (a wall-clock `Date`) is not
modelled; `currentReviews`/`totalReviews` are absent (`none`) until the
first poll merge writes them, matching the object literals in the source. -/
structure TaskRecord where
  taskId : String
  appId : String
  projectId : Option String
  analysisType : String
  status : String
  progress : ℚ
  step : String
  currentReviews : Option ℤ
  totalReviews : Option ℤ
  estimatedDuration : ℕ
  deriving DecidableEq, Repr

/-- The body of a status GET response (`response.data || {}`).  String
fields are `Option`s (absent ↦ `none`); `progressParsed` is the result of
`Number.parseFloat(data.progress_percent ?? data.progressPercent)` and
`currentParsed`/`totalParsed` of the corresponding `Number.parseInt`
calls, with `none` standing for a non-finite result (absent field,
non-numeric string, NaN or Infinity), which is exactly the case the
source's `Number.isFinite` guard rejects. -/
structure PollData where
  status : Option String
  result_message : Option String
  error_message : Option String
  task_type : Option String
  analysis_type : Option String
  progressParsed : Option ℚ
  currentParsed : Option ℤ
  totalParsed : Option ℤ
  deriving DecidableEq, Repr

/-- Payload of a `taskFailed` event: `data.error_message || data` — the
message string when truthy, otherwise the whole response body; transport
errors pass `error.message`, also a string. -/
inductive ErrPayload where
  | msg (s : String)
  | raw (d : PollData)
  deriving DecidableEq, Repr

/-- One `window.dispatchEvent` occurrence, with the `detail` fields the
module puts on each `CustomEvent`. -/
inductive Event where
  | taskCompleted (appId : String) (result : PollData) (analysisType : String)
  | taskFailed (appId : String) (error : ErrPayload) (analysisType : String)
  | taskTimeout (appId : String) (analysisType : String)
  deriving DecidableEq, Repr

/-- The React state owned by `TaskProvider`. -/
structure CoordState where
  runningTasks : List (String × TaskRecord)
  taskResults : List (String × PollData)
  globalLoading : Bool
  deriving DecidableEq, Repr

/-- Initial provider state: two empty maps, loading flag false. -/
def initState : CoordState := { runningTasks := [], taskResults := [], globalLoading := false }

/-- The mutable locals of one polling chain (`pollCount`, `pollInterval`).
Each `setTimeout(poll, pollInterval)` is modelled as handing the updated
locals to the next iteration. -/
structure PollerState where
  pollCount : ℕ
  pollInterval : ℕ
  deriving DecidableEq, Repr

/-- Poller locals at the top of `pollTaskStatus`: interval 2000 ms, counter
0. -/
def pollerInit : PollerState := { pollCount := 0, pollInterval := 2000 }

/-- Source `getStatusMessage`: `normalizeStatus` upper-cases the status and
the switch maps it to a human-readable step message. -/
def getStatusMessage (status : String) : String :=
  let n := jsUpper status
  if n = "PENDING" ∨ n = "STARTED" then "Queued for processing..."
  else if n = "PROGRESS" then "Analyzing reviews..."
  else if n = "SUCCESS" then "Analysis complete!"
  else if n = "FAILURE" ∨ n = "REVOKED" then "Analysis failed"
  else "Processing..."

/-- The status normalization at the top of each poll iteration:
`(data.status || 'pending').toLowerCase()`. -/
def normStatus (d : PollData) : String := jsLower (jsOrS d.status "pending")

/-- The analysis kind a terminal handler resolves for its event when only
the registry record is available:
`(currentTask?.analysisType || 'quick').toLowerCase()`. -/
def kindOf (appId : String) (s : CoordState) : String :=
  jsLower (jsOrS ((AList.get appId s.runningTasks).map TaskRecord.analysisType) "quick")

/-- Source `handleTaskSuccess`: delete the registry entry, recompute the
loading flag from the shrunken map, store the payload in `taskResults`
(overwriting), and dispatch one `taskCompleted` event whose kind is
`(result?.task_type || currentTask?.analysisType || 'quick').toLowerCase()`. -/
def handleTaskSuccess (appId : String) (result : PollData) (s : CoordState) :
    CoordState × List Event :=
  let currentTask := AList.get appId s.runningTasks
  let newTasks := AList.del appId s.runningTasks
  let resolvedType :=
    jsLower (jsOrS result.task_type
      (jsOrS (currentTask.map TaskRecord.analysisType) "quick"))
  ({ runningTasks := newTasks,
     taskResults := AList.set appId result s.taskResults,
     globalLoading := decide (0 < newTasks.length) },
   [Event.taskCompleted appId result resolvedType])

/-- Source `handleTaskFailure`: delete the registry entry, recompute the
loading flag, leave `taskResults` untouched, and dispatch one `taskFailed`
event. -/
def handleTaskFailure (appId : String) (error : ErrPayload) (s : CoordState) :
    CoordState × List Event :=
  let resolvedType := kindOf appId s
  let newTasks := AList.del appId s.runningTasks
  ({ runningTasks := newTasks,
     taskResults := s.taskResults,
     globalLoading := decide (0 < newTasks.length) },
   [Event.taskFailed appId error resolvedType])

/-- Source `handleTaskTimeout`: delete the registry entry, recompute the
loading flag, leave `taskResults` untouched, and dispatch one `taskTimeout`
event. -/
def handleTaskTimeout (appId : String) (s : CoordState) : CoordState × List Event :=
  let resolvedType := kindOf appId s
  let newTasks := AList.del appId s.runningTasks
  ({ runningTasks := newTasks,
     taskResults := s.taskResults,
     globalLoading := decide (0 < newTasks.length) },
   [Event.taskTimeout appId resolvedType])

/-- The `setRunningTasks` updater at the top of each poll iteration: when a
record for `appId` is live, merge the response into it — clamping a finite
`progressPercent` to [0,100] and otherwise retaining `existingTask.progress
|| 0`, flooring review counts at 0 with `?? existing ?? default` fallbacks,
resolving the kind through the `task_type || analysis_type || existing ||
'quick'` chain, and preferring `result_message`, then the raw status, then
`getStatusMessage` for the step text.  Absent key: no-op. -/
def mergeUpdate (appId : String) (d : PollData) (status : String) (s : CoordState) :
    CoordState :=
  match AList.get appId s.runningTasks with
  | none => s
  | some existingTask =>
    let nextProgress :=
      match d.progressParsed with
      | some q => max 0 (min 100 q)
      | none => jsOrQ existingTask.progress 0
    let nextCurrent :=
      match d.currentParsed with
      | some z => max z 0
      | none => existingTask.currentReviews.getD 0
    let nextTotal :=
      match d.totalParsed with
      | some z => max z 0
      | none => existingTask.totalReviews.getD 1000
    let taskType :=
      jsLower (jsOrS d.task_type (jsOrS d.analysis_type
        (jsOrS (some existingTask.analysisType) "quick")))
    let nextStep := jsOrS d.result_message (jsOrS d.status (getStatusMessage status))
    let merged : TaskRecord :=
      { existingTask with
        analysisType := taskType,
        status := status,
        progress := nextProgress,
        step := nextStep,
        currentReviews := some nextCurrent,
        totalReviews := some nextTotal }
    { s with runningTasks := AList.set appId merged s.runningTasks }

/-- Input to one poll iteration: either the GET response body or a thrown
transport/parse error carrying `error.message`. -/
inductive PollInput where
  | ok (d : PollData)
  | err (message : String)
  deriving DecidableEq, Repr

/-- Payload handed to `handleTaskFailure` on a `failure`/`revoked` status:
`data.error_message || data`. -/
def failPayload (d : PollData) : ErrPayload :=
  match d.error_message with
  | some m => if m = "" then ErrPayload.raw d else ErrPayload.msg m
  | none => ErrPayload.raw d

/-- The interval the mutable `pollInterval` holds after the two backoff
assignments of an iteration whose incremented counter is `pollCount + 1`:
`if (pollCount > 10) pollInterval = 3000; if (pollCount > 30) pollInterval
= 5000;` applied to the carried-over interval. -/
def stepInterval (ps : PollerState) : ℕ :=
  if ps.pollCount + 1 > 30 then 5000
  else if ps.pollCount + 1 > 10 then 3000
  else ps.pollInterval

/-- Closed form of the value held by `pollInterval` after `n` completed
non-terminal iterations: 2000 ms through the 10th, 3000 ms through the
30th, 5000 ms beyond. -/
def intervalAt (n : ℕ) : ℕ :=
  if n ≤ 10 then 2000 else if n ≤ 30 then 3000 else 5000

/-- Consistency of the chain locals: the carried interval equals the
closed form at the current counter value.  Holds at `pollerInit` and is
preserved by every scheduled iteration. -/
def PollerOk (ps : PollerState) : Prop := ps.pollInterval = intervalAt ps.pollCount

/-- Does this poll input keep the chain alive: a response whose normalized
status is `pending`, `started` or `progress`. -/
def isNonTerminal (r : PollInput) : Bool :=
  match r with
  | PollInput.ok d =>
    decide (normStatus d = "pending" ∨ normStatus d = "started" ∨ normStatus d = "progress")
  | PollInput.err _ => false

/-- Result of one poll iteration: the new provider state, the events
dispatched during the iteration, and — when `setTimeout(poll, pollInterval)`
ran — the delay passed to the scheduler together with the locals the next
iteration will see. -/
structure PollStepResult where
  state : CoordState
  events : List Event
  sched : Option (ℕ × PollerState)
  deriving DecidableEq, Repr

/-- One iteration of the `poll` closure inside `pollTaskStatus`: normalize
the status, merge into the registry, then branch — `success` to
`handleTaskSuccess`, `failure`/`revoked` to `handleTaskFailure`,
`pending`/`started`/`progress` to the backoff/limit logic (increment
`pollCount`, raise the interval to 3000 past 10 and 5000 past 30, schedule
while below `maxPolls = 150`, else `handleTaskTimeout`), any other status
falls through with neither a handler nor a reschedule; a thrown fetch error
goes straight to `handleTaskFailure(appId, error.message)`. -/
def pollStep (appId : String) (input : PollInput) (ps : PollerState) (s : CoordState) :
    PollStepResult :=
  match input with
  | PollInput.err m =>
    { state := (handleTaskFailure appId (ErrPayload.msg m) s).1,
      events := (handleTaskFailure appId (ErrPayload.msg m) s).2,
      sched := none }
  | PollInput.ok d =>
    let status := normStatus d
    let s₁ := mergeUpdate appId d status s
    if status = "success" then
      { state := (handleTaskSuccess appId d s₁).1,
        events := (handleTaskSuccess appId d s₁).2,
        sched := none }
    else if status = "failure" ∨ status = "revoked" then
      { state := (handleTaskFailure appId (failPayload d) s₁).1,
        events := (handleTaskFailure appId (failPayload d) s₁).2,
        sched := none }
    else if status = "pending" ∨ status = "started" ∨ status = "progress" then
      if ps.pollCount + 1 < 150 then
        { state := s₁, events := [],
          sched := some (stepInterval ps,
            { pollCount := ps.pollCount + 1, pollInterval := stepInterval ps }) }
      else
        { state := (handleTaskTimeout appId s₁).1,
          events := (handleTaskTimeout appId s₁).2,
          sched := none }
    else
      { state := s₁, events := [], sched := none }

/-- Result of running a polling chain over a list of responses. -/
structure RunResult where
  state : CoordState
  events : List Event
  cont : Option PollerState
  deriving DecidableEq, Repr

/-- Run the polling chain over successive responses, stopping as soon as an
iteration does not call `setTimeout`; `cont` is `some` with the live locals
when the chain is still scheduled after consuming the list. -/
def runPoll (appId : String) : List PollInput → PollerState → CoordState → RunResult
  | [], ps, s => { state := s, events := [], cont := some ps }
  | r :: rs, ps, s =>
    let out := pollStep appId r ps s
    match out.sched with
    | none => { state := out.state, events := out.events, cont := none }
    | some (_, ps') =>
      let rest := runPoll appId rs ps' out.state
      { state := rest.state, events := out.events ++ rest.events, cont := rest.cont }

/-- The `error` object a failed submit POST rejects with, as far as
`startTask`'s catch block inspects it: `error.response?.status` and the
conflict descriptor in `error.response?.data`. -/
structure ErrResponse where
  status : ℕ
  existing_task_id : Option String
  task_status : Option String
  task_type : Option String
  deriving DecidableEq, Repr

/-- Outcome of the submit POST `apiClient.post('/api/analysis/start/')`:
either a body carrying `task_id`, or a rejection whose `response` field may
itself be absent (pure network failure). -/
inductive SubmitResult where
  | ok (taskId : String)
  | err (response : Option ErrResponse)
  deriving DecidableEq, Repr

/-- Result of `startTask`: the value returned or the rethrown error, the
new provider state, and the `pollTaskStatus(taskId, appId)` launch when one
happened. -/
structure StartResult where
  ret : Except Unit String
  state : CoordState
  pollLaunch : Option (String × String)
  deriving Repr

/-- Source `startTask(appId, projectId = null, analysisType = 'quick')`,
with the submit POST's outcome passed in.  On success: insert a fresh
pending record keyed by `appId`, set the loading flag, launch polling on
the returned `task_id`.  On a 409 rejection whose body carries a truthy
`existing_task_id`: adopt the server's existing task — record keyed by
`appId` with the server's task id, `task_status || 'pending'`, and
`(task_type || normalizedType || 'quick').toLowerCase()` — set the loading
flag and resume polling that id.  Any other rejection is rethrown with the
state untouched. -/
def startTask (appId : String) (projectId : Option String) (analysisType : String)
    (res : SubmitResult) (s : CoordState) : StartResult :=
  let normalizedType := jsLower (jsOrS (some analysisType) "quick")
  match res with
  | SubmitResult.ok taskId =>
    let record : TaskRecord :=
      { taskId := taskId, appId := appId, projectId := projectId,
        analysisType := normalizedType, status := "pending", progress := 0,
        step := "Initializing analysis...", currentReviews := none,
        totalReviews := none,
        estimatedDuration := if normalizedType = "full" then 300000 else 60000 }
    let newTasks := AList.set appId record s.runningTasks
    { ret := Except.ok taskId,
      state := { s with runningTasks := newTasks, globalLoading := true },
      pollLaunch := some (taskId, appId) }
  | SubmitResult.err response =>
    match response with
    | some r =>
      if r.status = 409 ∧ jsOrS r.existing_task_id "" ≠ "" then
        let taskId := jsOrS r.existing_task_id ""
        let existingStatus := jsOrS r.task_status "pending"
        let existingType := jsLower (jsOrS r.task_type (jsOrS (some normalizedType) "quick"))
        let record : TaskRecord :=
          { taskId := taskId, appId := appId, projectId := projectId,
            analysisType := existingType, status := existingStatus, progress := 0,
            step := getStatusMessage existingStatus, currentReviews := none,
            totalReviews := none,
            estimatedDuration := if existingType = "full" then 300000 else 60000 }
        let newTasks := AList.set appId record s.runningTasks
        { ret := Except.ok taskId,
          state := { s with runningTasks := newTasks, globalLoading := true },
          pollLaunch := some (taskId, appId) }
      else
        { ret := Except.error (), state := s, pollLaunch := none }
    | none => { ret := Except.error (), state := s, pollLaunch := none }

/-- Source `clearTaskResult`: delete the `taskResults` entry for the key;
`runningTasks` and `globalLoading` are untouched. -/
def clearTaskResult (appId : String) (s : CoordState) : CoordState :=
  { s with taskResults := AList.del appId s.taskResults }

/-- Source `isTaskRunning`: `runningTasks.has(appId)`. -/
def isTaskRunning (appId : String) (s : CoordState) : Bool :=
  AList.has appId s.runningTasks

/-- What `handleStartAnalysis` in the premium dashboard decides before any
network traffic: demo mode short-circuits, a missing project selection or
app id short-circuits, then `isTaskRunning(appId)` blocks a duplicate
submission with a panel message, and only otherwise is `startTask` invoked
(with the lower-cased kind). -/
inductive StartDecision where
  | demoBlocked
  | missingSelection
  | alreadyRunning
  | proceeds (appId : String) (projectId : String) (analysisType : String)
  deriving DecidableEq, Repr

/-- Source `handleStartAnalysis(appId, analysisType = 'quick')` from the
premium dashboard, reduced to its guard cascade: which branch runs and,
when submission proceeds, the arguments handed to `startTask`. -/
def handleStartAnalysis (isDemoMode : Bool) (selectedProjectId : Option String)
    (appId : String) (analysisType : String) (s : CoordState) : StartDecision :=
  if isDemoMode then StartDecision.demoBlocked
  else if jsOrS selectedProjectId "" = "" ∨ appId = "" then StartDecision.missingSelection
  else if isTaskRunning appId s then StartDecision.alreadyRunning
  else
    StartDecision.proceeds appId (jsOrS selectedProjectId "")
      (jsLower (jsOrS (some analysisType) "quick"))

/-- One observable transition of the provider state: a `startTask` call (any
submit outcome), one poll iteration of some chain (any response, any chain
locals), or a `clearTaskResult` call. -/
inductive Step : CoordState → CoordState → Prop
  | start (appId : String) (projectId : Option String) (analysisType : String)
      (res : SubmitResult) (s : CoordState) :
      Step s (startTask appId projectId analysisType res s).state
  | poll (appId : String) (input : PollInput) (ps : PollerState) (s : CoordState) :
      Step s (pollStep appId input ps s).state
  | clear (appId : String) (s : CoordState) :
      Step s (clearTaskResult appId s)

/-- States reachable from the freshly mounted provider. -/
inductive Reachable : CoordState → Prop
  | init : Reachable initState
  | step {s s' : CoordState} : Reachable s → Step s s' → Reachable s'

/-- The state invariant maintained by every transition: the registry keys
are pairwise distinct (at most one live record per app id), the global
loading flag equals registry non-emptiness, and every stored progress value
lies in [0,100]. -/
def StateInv (s : CoordState) : Prop :=
  AList.NodupKeys s.runningTasks ∧
  s.globalLoading = decide (0 < s.runningTasks.length) ∧
  ∀ p ∈ s.runningTasks, 0 ≤ (p.2).progress ∧ (p.2).progress ≤ 100

/-- Fixture: a `progress` response at 42 percent. -/
def demoProgressData : PollData :=
  { status := some "PROGRESS", result_message := none, error_message := none,
    task_type := none, analysis_type := none, progressParsed := some 42,
    currentParsed := some 50, totalParsed := some 120 }

/-- Fixture: a `success` response carrying a `full` task type. -/
def demoSuccessData : PollData :=
  { status := some "success", result_message := none, error_message := none,
    task_type := some "full", analysis_type := none, progressParsed := none,
    currentParsed := none, totalParsed := none }

/-- Fixture: a response with a status outside the six canonical values. -/
def demoWeirdData : PollData :=
  { status := some "Retrying", result_message := none, error_message := none,
    task_type := none, analysis_type := none, progressParsed := none,
    currentParsed := none, totalParsed := none }

/-- Fixture: the provider state after one successful submit for
`app.demo`. -/
def demoStart : CoordState :=
  (startTask "app.demo" (some "p1") "quick" (SubmitResult.ok "t1") initState).state

/-- Fixture: the 409 rejection of the spec scenario, carrying the existing
task descriptor. -/
def demoConflict : ErrResponse :=
  { status := 409, existing_task_id := some "t9", task_status := some "progress",
    task_type := some "full" }

/-- Fixture: a live registry record for `app.demo` with nonzero stored
progress. -/
def demoRecord : TaskRecord :=
  { taskId := "t1", appId := "app.demo", projectId := some "p1",
    analysisType := "quick", status := "progress", progress := 37,
    step := "Analyzing reviews...", currentReviews := some 50,
    totalReviews := some 120, estimatedDuration := 60000 }

/-- Fixture: a provider state with one live record and the loading flag
set. -/
def demoLive : CoordState :=
  { runningTasks := [("app.demo", demoRecord)], taskResults := [],
    globalLoading := true }

/-- Fixture: a `progress` response whose progress field is absent or does
not parse to a finite number. -/
def demoNoProgressData : PollData :=
  { status := some "progress", result_message := none, error_message := none,
    task_type := none, analysis_type := none, progressParsed := none,
    currentParsed := none, totalParsed := none }

/-- Fixture: a `progress` response whose progress field parses to 150,
beyond the upper clamp. -/
def demoOverData : PollData :=
  { status := some "progress", result_message := none, error_message := none,
    task_type := none, analysis_type := none, progressParsed := some 150,
    currentParsed := none, totalParsed := none }

/-- Fixture: the registry record that `startTask` builds for the
`demoStart` state. -/
def demoStartRecord : TaskRecord :=
  { taskId := "t1", appId := "app.demo", projectId := some "p1",
    analysisType := "quick", status := "pending", progress := 0,
    step := "Initializing analysis...", currentReviews := none,
    totalReviews := none, estimatedDuration := 60000 }

/-! Lemmas about the association-list embedding of JavaScript `Map`. -/

theorem AList.get_set_self {α : Type} (k : String) (v : α) (l : List (String × α)) :
    AList.get k (AList.set k v l) = some v := by
  induction l with
  | nil => simp [AList.set, AList.get]
  | cons p t ih =>
    obtain ⟨k', v'⟩ := p
    by_cases h : k' = k
    · simp [AList.set, AList.get, h]
    · simp [AList.set, AList.get, h, ih]

theorem AList.get_set_ne {α : Type} {k' k : String} (hne : k' ≠ k) (v : α)
    (l : List (String × α)) : AList.get k (AList.set k' v l) = AList.get k l := by
  induction l with
  | nil => simp [AList.set, AList.get, hne]
  | cons p t ih =>
    obtain ⟨k₀, v₀⟩ := p
    by_cases h : k₀ = k'
    · subst h
      simp [AList.set, AList.get, hne]
    · simp [AList.set, AList.get, h, ih]

theorem AList.mem_set {α : Type} {p : String × α} {k : String} {v : α}
    {l : List (String × α)} (h : p ∈ AList.set k v l) : p = (k, v) ∨ p ∈ l := by
  induction l with
  | nil => simpa [AList.set] using h
  | cons q t ih =>
    obtain ⟨k₀, v₀⟩ := q
    by_cases hk : k₀ = k
    · simp only [AList.set, if_pos hk, List.mem_cons] at h
      rcases h with h | h
      · exact Or.inl h
      · exact Or.inr (List.mem_cons_of_mem _ h)
    · simp only [AList.set, if_neg hk, List.mem_cons] at h
      rcases h with h | h
      · exact Or.inr (by simp [h])
      · rcases ih h with h' | h'
        · exact Or.inl h'
        · exact Or.inr (List.mem_cons_of_mem _ h')

theorem AList.mem_del {α : Type} {p : String × α} {k : String}
    {l : List (String × α)} (h : p ∈ AList.del k l) : p ∈ l := by
  induction l with
  | nil => simp [AList.del] at h
  | cons q t ih =>
    obtain ⟨k₀, v₀⟩ := q
    by_cases hk : k₀ = k
    · simp only [AList.del, if_pos hk] at h
      exact List.mem_cons_of_mem _ (ih h)
    · simp only [AList.del, if_neg hk, List.mem_cons] at h
      rcases h with h | h
      · exact by simp [h]
      · exact List.mem_cons_of_mem _ (ih h)

theorem AList.get_del_self {α : Type} (k : String) (l : List (String × α)) :
    AList.get k (AList.del k l) = none := by
  induction l with
  | nil => simp [AList.del, AList.get]
  | cons p t ih =>
    obtain ⟨k₀, v₀⟩ := p
    by_cases h : k₀ = k
    · simpa [AList.del, h] using ih
    · simpa [AList.del, AList.get, h] using ih

theorem AList.get_del_ne {α : Type} {k' k : String} (hne : k' ≠ k)
    (l : List (String × α)) : AList.get k (AList.del k' l) = AList.get k l := by
  induction l with
  | nil => simp [AList.del, AList.get]
  | cons p t ih =>
    obtain ⟨k₀, v₀⟩ := p
    by_cases h : k₀ = k'
    · subst h
      simpa [AList.del, AList.get, hne] using ih
    · by_cases h2 : k₀ = k
      · subst h2
        simp [AList.del, AList.get, Ne.symm hne]
      · simpa [AList.del, AList.get, h, h2] using ih

theorem AList.get_mem {α : Type} {k : String} {v : α} {l : List (String × α)}
    (h : AList.get k l = some v) : (k, v) ∈ l := by
  induction l with
  | nil => simp [AList.get] at h
  | cons p t ih =>
    obtain ⟨k₀, v₀⟩ := p
    by_cases hk : k₀ = k
    · subst hk
      simp [AList.get] at h
      subst h
      exact List.mem_cons_self _ _
    · simp only [AList.get, if_neg hk] at h
      exact List.mem_cons_of_mem _ (ih h)

theorem AList.mem_keys_set {α : Type} {a k : String} {v : α} {l : List (String × α)}
    (h : a ∈ (AList.set k v l).map Prod.fst) : a = k ∨ a ∈ l.map Prod.fst := by
  induction l with
  | nil => simpa [AList.set] using h
  | cons p t ih =>
    obtain ⟨k₀, v₀⟩ := p
    by_cases hk : k₀ = k
    · subst hk
      simpa [AList.set] using h
    · simp only [AList.set, if_neg hk, List.map_cons, List.mem_cons] at h
      rcases h with h | h
      · exact Or.inr (by simp [h])
      · rcases ih h with h' | h'
        · exact Or.inl h'
        · exact Or.inr (by simp [h'])

theorem AList.nodup_set {α : Type} {k : String} {v : α} {l : List (String × α)}
    (h : AList.NodupKeys l) : AList.NodupKeys (AList.set k v l) := by
  induction l with
  | nil => simp [AList.set, AList.NodupKeys]
  | cons p t ih =>
    obtain ⟨k₀, v₀⟩ := p
    simp only [AList.NodupKeys, List.map_cons, List.nodup_cons] at h
    by_cases hk : k₀ = k
    · subst hk
      simpa [AList.NodupKeys, AList.set, List.nodup_cons] using h
    · have ht := ih h.2
      simp only [AList.NodupKeys, AList.set, if_neg hk, List.map_cons, List.nodup_cons]
      refine ⟨fun hmem => ?_, ht⟩
      rcases AList.mem_keys_set hmem with h' | h'
      · exact hk h'
      · exact h.1 h'

theorem AList.mem_keys_del {α : Type} {a k : String} {l : List (String × α)}
    (h : a ∈ (AList.del k l).map Prod.fst) : a ∈ l.map Prod.fst := by
  simp only [List.mem_map] at h ⊢
  obtain ⟨p, hp, rfl⟩ := h
  exact ⟨p, AList.mem_del hp, rfl⟩

theorem AList.nodup_del {α : Type} (k : String) {l : List (String × α)}
    (h : AList.NodupKeys l) : AList.NodupKeys (AList.del k l) := by
  induction l with
  | nil => simp [AList.del, AList.NodupKeys]
  | cons p t ih =>
    obtain ⟨k₀, v₀⟩ := p
    simp only [AList.NodupKeys, List.map_cons, List.nodup_cons] at h
    by_cases hk : k₀ = k
    · simpa [AList.del, hk] using ih h.2
    · have ht := ih h.2
      simp only [AList.NodupKeys, AList.del, if_neg hk, List.map_cons, List.nodup_cons]
      exact ⟨fun hmem => h.1 (AList.mem_keys_del hmem), ht⟩

theorem AList.length_set_pos {α : Type} (k : String) (v : α) (l : List (String × α)) :
    0 < (AList.set k v l).length := by
  cases l with
  | nil => simp [AList.set]
  | cons p t =>
    obtain ⟨k₀, v₀⟩ := p
    by_cases hk : k₀ = k
    · simp [AList.set, hk]
    · simp [AList.set, hk]

theorem AList.length_set_of_get {α : Type} {k : String} {v₀ : α} (v : α)
    {l : List (String × α)} (h : AList.get k l = some v₀) :
    (AList.set k v l).length = l.length := by
  induction l with
  | nil => simp [AList.get] at h
  | cons p t ih =>
    obtain ⟨k₀, v₀'⟩ := p
    by_cases hk : k₀ = k
    · simp [AList.set, hk]
    · simp only [AList.get, if_neg hk] at h
      simp [AList.set, hk, ih h]

/-! Basic facts about the JavaScript-semantics helpers. -/

theorem jsOrQ_zero (q : ℚ) : jsOrQ q 0 = q := by
  by_cases h : q = 0 <;> simp [jsOrQ, h]

theorem pollerInit_ok : PollerOk pollerInit := by
  simp [PollerOk, pollerInit, intervalAt]

theorem stepInterval_eq {ps : PollerState} (h : PollerOk ps) :
    stepInterval ps = intervalAt (ps.pollCount + 1) := by
  unfold PollerOk intervalAt at h
  unfold stepInterval intervalAt
  split_ifs at h ⊢ <;> omega

/-! Frame facts about the registry merge performed at the top of each poll
iteration. -/

theorem mergeUpdate_taskResults (appId : String) (d : PollData) (status : String)
    (s : CoordState) : (mergeUpdate appId d status s).taskResults = s.taskResults := by
  unfold mergeUpdate
  cases hget : AList.get appId s.runningTasks <;> simp

theorem mergeUpdate_globalLoading (appId : String) (d : PollData) (status : String)
    (s : CoordState) : (mergeUpdate appId d status s).globalLoading = s.globalLoading := by
  unfold mergeUpdate
  cases hget : AList.get appId s.runningTasks <;> simp

theorem mergeUpdate_has (appId : String) (d : PollData) (status : String)
    (s : CoordState) :
    AList.has appId (mergeUpdate appId d status s).runningTasks =
      AList.has appId s.runningTasks := by
  unfold mergeUpdate
  cases hget : AList.get appId s.runningTasks with
  | none => simp
  | some ex => simp [AList.has, AList.get_set_self, hget]

theorem mergeUpdate_length (appId : String) (d : PollData) (status : String)
    (s : CoordState) :
    (mergeUpdate appId d status s).runningTasks.length = s.runningTasks.length := by
  unfold mergeUpdate
  cases hget : AList.get appId s.runningTasks with
  | none => simp
  | some ex => simp [AList.length_set_of_get _ hget]

theorem mergeUpdate_progress_none {appId : String} {d : PollData} (status : String)
    {s : CoordState} {ex : TaskRecord} (hget : AList.get appId s.runningTasks = some ex)
    (hp : d.progressParsed = none) :
    (AList.get appId (mergeUpdate appId d status s).runningTasks).map TaskRecord.progress =
      some ex.progress := by
  unfold mergeUpdate
  rw [hget]
  simp [AList.get_set_self, hp, jsOrQ_zero]

theorem mergeUpdate_progress_some {appId : String} {d : PollData} (status : String)
    {s : CoordState} {ex : TaskRecord} {q : ℚ}
    (hget : AList.get appId s.runningTasks = some ex) (hp : d.progressParsed = some q) :
    (AList.get appId (mergeUpdate appId d status s).runningTasks).map TaskRecord.progress =
      some (max 0 (min 100 q)) := by
  unfold mergeUpdate
  rw [hget]
  simp [AList.get_set_self, hp]

/-! Branch characterizations of one poll iteration. -/

theorem pollStep_success_eq (appId : String) (d : PollData) (ps : PollerState)
    (s : CoordState) (h : normStatus d = "success") :
    pollStep appId (PollInput.ok d) ps s =
      { state := (handleTaskSuccess appId d (mergeUpdate appId d "success" s)).1,
        events := (handleTaskSuccess appId d (mergeUpdate appId d "success" s)).2,
        sched := none } := by
  simp [pollStep, h]

theorem pollStep_terminalFail_eq (appId : String) (d : PollData) (ps : PollerState)
    (s : CoordState) (h : normStatus d = "failure" ∨ normStatus d = "revoked") :
    pollStep appId (PollInput.ok d) ps s =
      { state :=
          (handleTaskFailure appId (failPayload d)
            (mergeUpdate appId d (normStatus d) s)).1,
        events :=
          (handleTaskFailure appId (failPayload d)
            (mergeUpdate appId d (normStatus d) s)).2,
        sched := none } := by
  rcases h with h | h <;> simp [pollStep, h]

theorem pollStep_nonterminal_eq (appId : String) (d : PollData) (ps : PollerState)
    (s : CoordState) (h : isNonTerminal (PollInput.ok d) = true)
    (hlt : ps.pollCount + 1 < 150) :
    pollStep appId (PollInput.ok d) ps s =
      { state := mergeUpdate appId d (normStatus d) s, events := [],
        sched := some (stepInterval ps,
          { pollCount := ps.pollCount + 1, pollInterval := stepInterval ps }) } := by
  simp only [isNonTerminal, decide_eq_true_eq] at h
  rcases h with h | h | h <;> simp [pollStep, h, hlt]

theorem pollStep_timeout_eq (appId : String) (d : PollData) (ps : PollerState)
    (s : CoordState) (h : isNonTerminal (PollInput.ok d) = true)
    (hge : ¬ ps.pollCount + 1 < 150) :
    pollStep appId (PollInput.ok d) ps s =
      { state := (handleTaskTimeout appId (mergeUpdate appId d (normStatus d) s)).1,
        events := (handleTaskTimeout appId (mergeUpdate appId d (normStatus d) s)).2,
        sched := none } := by
  simp only [isNonTerminal, decide_eq_true_eq] at h
  rcases h with h | h | h <;> simp [pollStep, h, hge]

theorem pollStep_unknown_eq (appId : String) (d : PollData) (ps : PollerState)
    (s : CoordState) (h1 : normStatus d ≠ "success") (h2 : normStatus d ≠ "failure")
    (h3 : normStatus d ≠ "revoked") (h4 : normStatus d ≠ "pending")
    (h5 : normStatus d ≠ "started") (h6 : normStatus d ≠ "progress") :
    pollStep appId (PollInput.ok d) ps s =
      { state := mergeUpdate appId d (normStatus d) s, events := [], sched := none } := by
  simp [pollStep, h1, h2, h3, h4, h5, h6]

/-! Facts about running a polling chain over a list of responses. -/

theorem runPoll_nil (appId : String) (ps : PollerState) (s : CoordState) :
    runPoll appId [] ps s = { state := s, events := [], cont := some ps } := rfl

theorem runPoll_cons_stop {appId : String} {r : PollInput} (rs : List PollInput)
    {ps : PollerState} {s : CoordState} (h : (pollStep appId r ps s).sched = none) :
    runPoll appId (r :: rs) ps s =
      { state := (pollStep appId r ps s).state,
        events := (pollStep appId r ps s).events, cont := none } := by
  simp [runPoll, h]

theorem runPoll_cons_go {appId : String} {r : PollInput} (rs : List PollInput)
    {ps : PollerState} {s : CoordState} {i : ℕ} {ps' : PollerState}
    (h : (pollStep appId r ps s).sched = some (i, ps')) :
    runPoll appId (r :: rs) ps s =
      { state := (runPoll appId rs ps' (pollStep appId r ps s).state).state,
        events := (pollStep appId r ps s).events ++
          (runPoll appId rs ps' (pollStep appId r ps s).state).events,
        cont := (runPoll appId rs ps' (pollStep appId r ps s).state).cont } := by
  simp [runPoll, h]

theorem runPoll_nonterminal_list (appId : String) :
    ∀ (l : List PollInput) (ps : PollerState) (s : CoordState),
      (∀ r ∈ l, isNonTerminal r = true) → PollerOk ps →
      ps.pollCount + l.length < 150 →
      (runPoll appId l ps s).events = [] ∧
      (runPoll appId l ps s).cont =
        some { pollCount := ps.pollCount + l.length,
               pollInterval := intervalAt (ps.pollCount + l.length) } ∧
      AList.has appId (runPoll appId l ps s).state.runningTasks =
        AList.has appId s.runningTasks ∧
      (runPoll appId l ps s).state.globalLoading = s.globalLoading ∧
      (runPoll appId l ps s).state.taskResults = s.taskResults := by
  intro l
  induction l with
  | nil =>
    intro ps s _ hok _
    obtain ⟨c, i⟩ := ps
    simp only [PollerOk] at hok
    simp [runPoll_nil, hok]
  | cons r t ih =>
    intro ps s hmem hok hlt
    have hr : isNonTerminal r = true := hmem r (List.mem_cons_self _ _)
    cases r with
    | err m => simp [isNonTerminal] at hr
    | ok d =>
      have hlt1 : ps.pollCount + 1 < 150 := by
        simp only [List.length_cons] at hlt
        omega
      have hstep := pollStep_nonterminal_eq appId d ps s hr hlt1
      have hsched : (pollStep appId (PollInput.ok d) ps s).sched =
          some (stepInterval ps,
            { pollCount := ps.pollCount + 1, pollInterval := stepInterval ps }) := by
        rw [hstep]
      have hok' : PollerOk { pollCount := ps.pollCount + 1, pollInterval := stepInterval ps } := by
        simp only [PollerOk]
        exact stepInterval_eq hok
      have hlt' : ps.pollCount + 1 + t.length < 150 := by
        simp only [List.length_cons] at hlt
        omega
      obtain ⟨he, hc, hh, hg, htr⟩ :=
        ih { pollCount := ps.pollCount + 1, pollInterval := stepInterval ps }
          (mergeUpdate appId d (normStatus d) s)
          (fun r hrr => hmem r (List.mem_cons_of_mem _ hrr)) hok' hlt'
      rw [runPoll_cons_go t hsched]
      simp only [hstep, List.nil_append]
      refine ⟨he, ?_, ?_, ?_, ?_⟩
      · rw [hc]
        have harith : ps.pollCount + 1 + t.length =
            ps.pollCount + (PollInput.ok d :: t).length := by
          simp only [List.length_cons]
          omega
        rw [harith]
      · rw [hh]
        exact mergeUpdate_has appId d (normStatus d) s
      · rw [hg]
        exact mergeUpdate_globalLoading appId d (normStatus d) s
      · rw [htr]
        exact mergeUpdate_taskResults appId d (normStatus d) s

theorem runPoll_append_cont (appId : String) (l₂ : List PollInput) :
    ∀ (l₁ : List PollInput) (ps : PollerState) (s : CoordState) (ps₁ : PollerState),
      (runPoll appId l₁ ps s).cont = some ps₁ →
      runPoll appId (l₁ ++ l₂) ps s =
        { state := (runPoll appId l₂ ps₁ (runPoll appId l₁ ps s).state).state,
          events := (runPoll appId l₁ ps s).events ++
            (runPoll appId l₂ ps₁ (runPoll appId l₁ ps s).state).events,
          cont := (runPoll appId l₂ ps₁ (runPoll appId l₁ ps s).state).cont } := by
  intro l₁
  induction l₁ with
  | nil =>
    intro ps s ps₁ hc
    simp only [runPoll_nil] at hc ⊢
    obtain rfl : ps = ps₁ := by simpa using hc
    simp
  | cons r t ih =>
    intro ps s ps₁ hc
    cases hs : (pollStep appId r ps s).sched with
    | none =>
      rw [runPoll_cons_stop t hs] at hc
      simp at hc
    | some pr =>
      obtain ⟨i, ps'⟩ := pr
      rw [runPoll_cons_go t hs] at hc
      simp only at hc
      have := ih ps' (pollStep appId r ps s).state ps₁ hc
      rw [List.cons_append, runPoll_cons_go (t ++ l₂) hs, this,
        runPoll_cons_go t hs]
      simp [List.append_assoc]

/-! The state invariant: distinct registry keys, loading flag tied to
registry size, progress within [0,100]. -/

theorem stateInv_init : StateInv initState := by
  simp [StateInv, initState, AList.NodupKeys]

theorem stateInv_handleTaskSuccess (appId : String) (d : PollData) {s : CoordState}
    (h : StateInv s) : StateInv (handleTaskSuccess appId d s).1 := by
  obtain ⟨hn, _, hp⟩ := h
  exact ⟨AList.nodup_del _ hn, rfl, fun p hm => hp p (AList.mem_del hm)⟩

theorem stateInv_handleTaskFailure (appId : String) (e : ErrPayload) {s : CoordState}
    (h : StateInv s) : StateInv (handleTaskFailure appId e s).1 := by
  obtain ⟨hn, _, hp⟩ := h
  exact ⟨AList.nodup_del _ hn, rfl, fun p hm => hp p (AList.mem_del hm)⟩

theorem stateInv_handleTaskTimeout (appId : String) {s : CoordState}
    (h : StateInv s) : StateInv (handleTaskTimeout appId s).1 := by
  obtain ⟨hn, _, hp⟩ := h
  exact ⟨AList.nodup_del _ hn, rfl, fun p hm => hp p (AList.mem_del hm)⟩

theorem stateInv_mergeUpdate (appId : String) (d : PollData) (status : String)
    {s : CoordState} (h : StateInv s) : StateInv (mergeUpdate appId d status s) := by
  obtain ⟨hn, hl, hp⟩ := h
  unfold mergeUpdate
  cases hget : AList.get appId s.runningTasks with
  | none => exact ⟨hn, hl, hp⟩
  | some ex =>
    refine ⟨AList.nodup_set hn, ?_, ?_⟩
    · simpa [AList.length_set_of_get _ hget] using hl
    · intro p hm
      rcases AList.mem_set hm with hpe | hpold
      · subst hpe
        simp only
        cases hq : d.progressParsed with
        | some q =>
          simp only [hq]
          constructor
          · exact le_max_left _ _
          · exact max_le (by norm_num) (min_le_left _ _)
        | none =>
          simp only [hq, jsOrQ_zero]
          exact hp (appId, ex) (AList.get_mem hget)
      · exact hp p hpold

theorem stateInv_startTask (appId : String) (projectId : Option String)
    (analysisType : String) (res : SubmitResult) {s : CoordState} (h : StateInv s) :
    StateInv (startTask appId projectId analysisType res s).state := by
  obtain ⟨hn, hl, hp⟩ := h
  cases res with
  | ok tid =>
    refine ⟨AList.nodup_set hn, ?_, ?_⟩
    · simp only [startTask]
      exact (decide_eq_true (AList.length_set_pos _ _ _)).symm
    · intro p hm
      rcases AList.mem_set hm with hpe | hpold
      · subst hpe
        norm_num
      · exact hp p hpold
  | err resp =>
    cases resp with
    | none => exact ⟨hn, hl, hp⟩
    | some r =>
      by_cases hguard : r.status = 409 ∧ jsOrS r.existing_task_id "" ≠ ""
      · simp only [startTask, if_pos hguard]
        refine ⟨AList.nodup_set hn, ?_, ?_⟩
        · exact (decide_eq_true (AList.length_set_pos _ _ _)).symm
        · intro p hm
          rcases AList.mem_set hm with hpe | hpold
          · subst hpe
            norm_num
          · exact hp p hpold
      · simp only [startTask, if_neg hguard]
        exact ⟨hn, hl, hp⟩

theorem stateInv_pollStep (appId : String) (input : PollInput) (ps : PollerState)
    {s : CoordState} (h : StateInv s) : StateInv (pollStep appId input ps s).state := by
  cases input with
  | err m => exact stateInv_handleTaskFailure appId (ErrPayload.msg m) h
  | ok d =>
    simp only [pollStep]
    split_ifs with h1 h2 h3 h4
    · exact stateInv_handleTaskSuccess appId d (stateInv_mergeUpdate appId d _ h)
    · exact stateInv_handleTaskFailure appId (failPayload d) (stateInv_mergeUpdate appId d _ h)
    · exact stateInv_mergeUpdate appId d _ h
    · exact stateInv_handleTaskTimeout appId (stateInv_mergeUpdate appId d _ h)
    · exact stateInv_mergeUpdate appId d _ h

theorem stateInv_clearTaskResult (appId : String) {s : CoordState} (h : StateInv s) :
    StateInv (clearTaskResult appId s) := h

theorem stateInv_of_step {s s' : CoordState} (h : StateInv s) (hs : Step s s') :
    StateInv s' := by
  cases hs with
  | start appId projectId analysisType res s => exact stateInv_startTask _ _ _ _ h
  | poll appId input ps s => exact stateInv_pollStep _ _ _ h
  | clear appId s => exact stateInv_clearTaskResult _ h

theorem reachable_stateInv {s : CoordState} (h : Reachable s) : StateInv s := by
  induction h with
  | init => exact stateInv_init
  | step _ hs ih => exact stateInv_of_step ih hs

/-! Small facts used when instantiating the claims. -/

theorem jsOrS_some_ne {t : String} (h : t ≠ "") (b : String) : jsOrS (some t) b = t := by
  simp [jsOrS, h]

theorem jsOrS_ne_empty (a : Option String) {b : String} (hb : b ≠ "") : jsOrS a b ≠ "" := by
  cases a with
  | none => exact hb
  | some t =>
    by_cases ht : t = "" <;> simp [jsOrS, ht, hb]

theorem jsLower_ne_empty {s : String} (h : s ≠ "") : jsLower s ≠ "" := by
  intro hc
  apply h
  have hmap : s.data.map lowerChar = ([] : List Char) := congrArg String.data hc
  have hd : s.data = [] := by simpa using hmap
  cases s with
  | mk data =>
    simp only at hd
    rw [hd]

theorem handleTaskSuccess_runningTasks (appId : String) (d : PollData) (s : CoordState) :
    (handleTaskSuccess appId d s).1.runningTasks = AList.del appId s.runningTasks := rfl

theorem handleTaskSuccess_taskResults (appId : String) (d : PollData) (s : CoordState) :
    (handleTaskSuccess appId d s).1.taskResults = AList.set appId d s.taskResults := rfl

theorem handleTaskSuccess_events (appId : String) (d : PollData) (s : CoordState) :
    (handleTaskSuccess appId d s).2 =
      [Event.taskCompleted appId d
        (jsLower (jsOrS d.task_type
          (jsOrS ((AList.get appId s.runningTasks).map TaskRecord.analysisType) "quick")))] := rfl

theorem handleTaskFailure_runningTasks (appId : String) (e : ErrPayload) (s : CoordState) :
    (handleTaskFailure appId e s).1.runningTasks = AList.del appId s.runningTasks := rfl

theorem handleTaskFailure_taskResults (appId : String) (e : ErrPayload) (s : CoordState) :
    (handleTaskFailure appId e s).1.taskResults = s.taskResults := rfl

theorem handleTaskFailure_events (appId : String) (e : ErrPayload) (s : CoordState) :
    (handleTaskFailure appId e s).2 = [Event.taskFailed appId e (kindOf appId s)] := rfl

theorem handleTaskTimeout_runningTasks (appId : String) (s : CoordState) :
    (handleTaskTimeout appId s).1.runningTasks = AList.del appId s.runningTasks := rfl

theorem handleTaskTimeout_taskResults (appId : String) (s : CoordState) :
    (handleTaskTimeout appId s).1.taskResults = s.taskResults := rfl

theorem handleTaskTimeout_events (appId : String) (s : CoordState) :
    (handleTaskTimeout appId s).2 = [Event.taskTimeout appId (kindOf appId s)] := rfl

/-- Claim C7: when the status query of a poll iteration raises a transport
or parse error, the poller treats it as a failure immediately: it removes
the registry entry, dispatches exactly one `taskFailed` event carrying the
error message, leaves the result store untouched, schedules no further poll
for the task, and the error branch never retries the poll (the rest of the
chain never runs). -/
theorem poll_transport_error_fails_fast (appId m : String) (ps : PollerState)
    (s : CoordState) :
    (pollStep appId (PollInput.err m) ps s).sched = none ∧
    (pollStep appId (PollInput.err m) ps s).events =
      [Event.taskFailed appId (ErrPayload.msg m) (kindOf appId s)] ∧
    AList.get appId (pollStep appId (PollInput.err m) ps s).state.runningTasks = none ∧
    (pollStep appId (PollInput.err m) ps s).state.taskResults = s.taskResults ∧
    ∀ rs : List PollInput,
      (runPoll appId (PollInput.err m :: rs) ps s).events =
        [Event.taskFailed appId (ErrPayload.msg m) (kindOf appId s)] ∧
      (runPoll appId (PollInput.err m :: rs) ps s).cont = none := by
  refine ⟨rfl, rfl, AList.get_del_self appId s.runningTasks, rfl, ?_⟩
  intro rs
  have h0 : (pollStep appId (PollInput.err m) ps s).sched = none := rfl
  rw [runPoll_cons_stop rs h0]
  exact ⟨rfl, rfl⟩

/-- Claim C8: the result store is written only by a success outcome (which
overwrites the entry for the task's app id with the terminal payload) and
by `clearTaskResult` (which deletes exactly that entry); every non-success
poll outcome — failure, revoked, timeout, non-terminal, unknown status,
transport error — and every `startTask` branch leaves the result store
unchanged, and `clearTaskResult` touches neither the registry, the loading
flag, nor any other result key. -/
theorem result_store_frame :
    (∀ (appId : String) (d : PollData) (ps : PollerState) (s : CoordState),
      normStatus d = "success" →
      (pollStep appId (PollInput.ok d) ps s).state.taskResults =
        AList.set appId d s.taskResults ∧
      AList.get appId (pollStep appId (PollInput.ok d) ps s).state.taskResults = some d) ∧
    (∀ (appId : String) (d : PollData) (ps : PollerState) (s : CoordState),
      normStatus d ≠ "success" →
      (pollStep appId (PollInput.ok d) ps s).state.taskResults = s.taskResults) ∧
    (∀ (appId m : String) (ps : PollerState) (s : CoordState),
      (pollStep appId (PollInput.err m) ps s).state.taskResults = s.taskResults) ∧
    (∀ (appId : String) (projectId : Option String) (ty : String) (res : SubmitResult)
      (s : CoordState),
      (startTask appId projectId ty res s).state.taskResults = s.taskResults) ∧
    (∀ (appId : String) (s : CoordState),
      (clearTaskResult appId s).taskResults = AList.del appId s.taskResults ∧
      (clearTaskResult appId s).runningTasks = s.runningTasks ∧
      (clearTaskResult appId s).globalLoading = s.globalLoading ∧
      AList.get appId (clearTaskResult appId s).taskResults = none ∧
      ∀ k : String, k ≠ appId →
        AList.get k (clearTaskResult appId s).taskResults = AList.get k s.taskResults) := by
  refine ⟨?_, ?_, ?_, ?_, ?_⟩
  · intro appId d ps s h
    rw [pollStep_success_eq appId d ps s h]
    constructor
    · exact (handleTaskSuccess_taskResults _ _ _).trans
        (by rw [mergeUpdate_taskResults])
    · rw [handleTaskSuccess_taskResults, mergeUpdate_taskResults]
      exact AList.get_set_self _ _ _
  · intro appId d ps s h
    simp only [pollStep]
    split_ifs with h1 h2 h3 h4
    · exact absurd h1 h
    · exact (handleTaskFailure_taskResults appId (failPayload d)
          (mergeUpdate appId d (normStatus d) s)).trans
        (mergeUpdate_taskResults appId d (normStatus d) s)
    · exact mergeUpdate_taskResults appId d (normStatus d) s
    · exact (handleTaskTimeout_taskResults appId
          (mergeUpdate appId d (normStatus d) s)).trans
        (mergeUpdate_taskResults appId d (normStatus d) s)
    · exact mergeUpdate_taskResults appId d (normStatus d) s
  · intro appId m ps s
    rfl
  · intro appId projectId ty res s
    cases res with
    | ok tid => rfl
    | err o =>
      cases o with
      | none => rfl
      | some r =>
        by_cases hg : r.status = 409 ∧ jsOrS r.existing_task_id "" ≠ ""
        · simp only [startTask, if_pos hg]
        · simp only [startTask, if_neg hg]
  · intro appId s
    exact ⟨rfl, rfl, rfl, AList.get_del_self _ _,
      fun k hk => AList.get_del_ne (Ne.symm hk) _⟩

/-- Claim C10: a poll response whose normalized status lies outside the six
canonical values hits no branch of the polling loop: no outcome handler
runs, no event is dispatched, no further poll is scheduled, so the chain
ends silently — the registry record stays live indefinitely, the loading
flag and the result store are untouched, and no event is ever dispatched
for that lifecycle no matter what responses would have followed. -/
theorem unknown_status_stalls (appId : String) (d : PollData) (ps : PollerState)
    (s : CoordState) (rs : List PollInput)
    (h1 : normStatus d ≠ "success") (h2 : normStatus d ≠ "failure")
    (h3 : normStatus d ≠ "revoked") (h4 : normStatus d ≠ "pending")
    (h5 : normStatus d ≠ "started") (h6 : normStatus d ≠ "progress") :
    (runPoll appId (PollInput.ok d :: rs) ps s).events = [] ∧
    (runPoll appId (PollInput.ok d :: rs) ps s).cont = none ∧
    AList.has appId (runPoll appId (PollInput.ok d :: rs) ps s).state.runningTasks =
      AList.has appId s.runningTasks ∧
    (runPoll appId (PollInput.ok d :: rs) ps s).state.globalLoading = s.globalLoading ∧
    (runPoll appId (PollInput.ok d :: rs) ps s).state.taskResults = s.taskResults := by
  have hstep := pollStep_unknown_eq appId d ps s h1 h2 h3 h4 h5 h6
  have hsched : (pollStep appId (PollInput.ok d) ps s).sched = none := by rw [hstep]
  rw [runPoll_cons_stop rs hsched]
  refine ⟨?_, rfl, ?_, ?_, ?_⟩
  · rw [hstep]
  · rw [hstep]
    exact mergeUpdate_has appId d (normStatus d) s
  · rw [hstep]
    exact mergeUpdate_globalLoading appId d (normStatus d) s
  · rw [hstep]
    exact mergeUpdate_taskResults appId d (normStatus d) s

/-- Claim C4: the polling interval follows the three-tier step schedule:
the locals start consistent (`pollerInit` carries 2000 ms at counter 0),
every scheduled iteration keeps them consistent, every non-terminal
iteration schedules the next poll with delay `intervalAt` of the new
counter, and `intervalAt n` is 2000 ms for iterations 1–10, 3000 ms for
11–30, and 5000 ms from 31 on. -/
theorem poll_backoff_schedule :
    PollerOk pollerInit ∧
    (∀ (appId : String) (input : PollInput) (ps : PollerState) (s : CoordState)
      (delay : ℕ) (ps' : PollerState),
      (pollStep appId input ps s).sched = some (delay, ps') → PollerOk ps →
      PollerOk ps' ∧ delay = ps'.pollInterval ∧ ps'.pollCount = ps.pollCount + 1) ∧
    (∀ (appId : String) (d : PollData) (ps : PollerState) (s : CoordState),
      PollerOk ps → isNonTerminal (PollInput.ok d) = true → ps.pollCount + 1 < 150 →
      (pollStep appId (PollInput.ok d) ps s).sched =
        some (intervalAt (ps.pollCount + 1),
          { pollCount := ps.pollCount + 1, pollInterval := intervalAt (ps.pollCount + 1) })) ∧
    (∀ n : ℕ, (1 ≤ n → n ≤ 10 → intervalAt n = 2000) ∧
      (11 ≤ n → n ≤ 30 → intervalAt n = 3000) ∧ (31 ≤ n → intervalAt n = 5000)) := by
  refine ⟨pollerInit_ok, ?_, ?_, ?_⟩
  · intro appId input ps s delay ps' hsched hok
    cases input with
    | err m => simp [pollStep] at hsched
    | ok d =>
      simp only [pollStep] at hsched
      split_ifs at hsched with h1 h2 h3 h4 <;>
        first
          | (simp only [Option.some.injEq, Prod.mk.injEq] at hsched
             obtain ⟨hdelay, hps⟩ := hsched
             subst hps
             refine ⟨?_, hdelay.symm, rfl⟩
             simp only [PollerOk]
             exact stepInterval_eq hok)
          | simp at hsched
  · intro appId d ps s hok hnt hlt
    rw [pollStep_nonterminal_eq appId d ps s hnt hlt]
    simp only [stepInterval_eq hok]
  · intro n
    refine ⟨?_, ?_, ?_⟩ <;> intro h1 <;> unfold intervalAt <;> first
      | (intro h2; split_ifs <;> omega)
      | (split_ifs <;> omega)

/-- Claim C5: the progress merge is defensively safe — when a poll response
omits `progressPercent` or supplies a value that does not parse to a finite
number, the stored progress is exactly the previously stored value; when it
supplies a finite value the stored progress is that value clamped to
[0,100]; and in every reachable provider state every stored progress value
lies in [0,100] (in particular it is never non-finite, being a rational of
the model by construction). -/
theorem progress_merge_safety :
    (∀ (appId : String) (d : PollData) (status : String) (s : CoordState)
      (ex : TaskRecord),
      AList.get appId s.runningTasks = some ex → d.progressParsed = none →
      (AList.get appId (mergeUpdate appId d status s).runningTasks).map
        TaskRecord.progress = some ex.progress) ∧
    (∀ (appId : String) (d : PollData) (status : String) (s : CoordState)
      (ex : TaskRecord) (q : ℚ),
      AList.get appId s.runningTasks = some ex → d.progressParsed = some q →
      (AList.get appId (mergeUpdate appId d status s).runningTasks).map
        TaskRecord.progress = some (max 0 (min 100 q)) ∧
      0 ≤ max 0 (min 100 q) ∧ max 0 (min 100 q) ≤ 100) ∧
    (∀ s : CoordState, Reachable s →
      ∀ p ∈ s.runningTasks, 0 ≤ (p.2).progress ∧ (p.2).progress ≤ 100) := by
  refine ⟨?_, ?_, ?_⟩
  · intro appId d status s ex hget hp
    exact mergeUpdate_progress_none status hget hp
  · intro appId d status s ex q hget hp
    refine ⟨mergeUpdate_progress_some status hget hp, le_max_left _ _,
      max_le (by norm_num) (min_le_left _ _)⟩
  · intro s h
    exact (reachable_stateInv h).2.2

theorem startTask_conflict_adopt_aux (appId : String) (projectId : Option String)
    (analysisType : String) (r : ErrResponse) (tid : String) (s : CoordState)
    (h409 : r.status = 409) (hid : r.existing_task_id = some tid) (hne : tid ≠ "") :
    (startTask appId projectId analysisType (SubmitResult.err (some r)) s).ret =
      Except.ok tid ∧
    (startTask appId projectId analysisType (SubmitResult.err (some r)) s).pollLaunch =
      some (tid, appId) ∧
    (startTask appId projectId analysisType (SubmitResult.err (some r)) s).state.globalLoading =
      true ∧
    AList.get appId
        (startTask appId projectId analysisType (SubmitResult.err (some r)) s).state.runningTasks =
      some
        { taskId := tid, appId := appId, projectId := projectId,
          analysisType :=
            jsLower (jsOrS r.task_type (jsLower (jsOrS (some analysisType) "quick"))),
          status := jsOrS r.task_status "pending", progress := 0,
          step := getStatusMessage (jsOrS r.task_status "pending"),
          currentReviews := none, totalReviews := none,
          estimatedDuration :=
            if jsLower (jsOrS r.task_type (jsLower (jsOrS (some analysisType) "quick"))) = "full"
            then 300000 else 60000 } := by
  have hq : ("quick" : String) ≠ "" := by decide
  have hnorm : jsOrS (some (jsLower (jsOrS (some analysisType) "quick"))) "quick" =
      jsLower (jsOrS (some analysisType) "quick") :=
    jsOrS_some_ne (jsLower_ne_empty (jsOrS_ne_empty _ hq)) _
  have hguard2 : r.status = 409 ∧ tid ≠ "" := ⟨h409, hne⟩
  refine ⟨?_, ?_, ?_, ?_⟩ <;>
      simp only [startTask, hid, jsOrS_some_ne hne, hnorm] <;>
      rw [if_pos hguard2] <;>
      first
        | rfl
        | exact AList.get_set_self _ _ _

/-- Claim C6: a submit rejected with HTTP 409 and a truthy
`existing_task_id` does not throw: `startTask` returns the server's
existing task id, registers a local record keyed by the app id whose
`taskId` is that existing id, whose `status` is the server-reported
`task_status` defaulting to `pending`, whose kind is the server-reported
`task_type` when truthy and otherwise the locally requested (normalized)
kind, sets the loading flag, and resumes polling the existing id — no
second remote task is created. -/
theorem startTask_conflict_adoption (appId : String) (projectId : Option String)
    (analysisType : String) (r : ErrResponse) (tid : String) (s : CoordState)
    (h409 : r.status = 409) (hid : r.existing_task_id = some tid) (hne : tid ≠ "") :
    (startTask appId projectId analysisType (SubmitResult.err (some r)) s).ret =
      Except.ok tid ∧
    (startTask appId projectId analysisType (SubmitResult.err (some r)) s).pollLaunch =
      some (tid, appId) ∧
    (startTask appId projectId analysisType (SubmitResult.err (some r)) s).state.globalLoading =
      true ∧
    AList.get appId
        (startTask appId projectId analysisType (SubmitResult.err (some r)) s).state.runningTasks =
      some
        { taskId := tid, appId := appId, projectId := projectId,
          analysisType :=
            jsLower (jsOrS r.task_type (jsLower (jsOrS (some analysisType) "quick"))),
          status := jsOrS r.task_status "pending", progress := 0,
          step := getStatusMessage (jsOrS r.task_status "pending"),
          currentReviews := none, totalReviews := none,
          estimatedDuration :=
            if jsLower (jsOrS r.task_type (jsLower (jsOrS (some analysisType) "quick"))) = "full"
            then 300000 else 60000 } :=
  startTask_conflict_adopt_aux appId projectId analysisType r tid s h409 hid hne

/-- Claim C9: in every reachable provider state the global loading flag
equals the predicate "the running-task registry is non-empty" — every
insert (plain submit and conflict adoption) and every remove (success,
failure, timeout) re-establishes it, and no transition lets it drift. -/
theorem globalLoading_iff_registry_nonempty (s : CoordState) (h : Reachable s) :
    s.globalLoading = decide (0 < s.runningTasks.length) ∧
    (s.globalLoading = true ↔ 0 < s.runningTasks.length) := by
  have hl := (reachable_stateInv h).2.1
  refine ⟨hl, ?_⟩
  rw [hl]
  exact decide_eq_true_iff

/-- Witness for claim C9 at the reachable state following one successful
submit: the flag is true and the registry holds one record. -/
theorem globalLoading_iff_registry_nonempty_witness :
    demoStart.globalLoading = decide (0 < demoStart.runningTasks.length) ∧
    (demoStart.globalLoading = true ↔ 0 < demoStart.runningTasks.length) :=
  globalLoading_iff_registry_nonempty demoStart
    (Reachable.step Reachable.init
      (Step.start "app.demo" (some "p1") "quick" (SubmitResult.ok "t1") initState))

/-- Claim C1: at most one live task record per app id — every reachable
registry has pairwise-distinct keys; a second submission attempt for a
live app id is rejected by the dashboard's guard before any network call
(`alreadyRunning`); and the conflict-adoption path of `startTask` reuses
the server-reported existing task id — the local record's `taskId` is the
existing id, polling resumes on that id, and no second remote task is
created. -/
theorem at_most_one_live_task :
    (∀ s : CoordState, Reachable s → AList.NodupKeys s.runningTasks) ∧
    (∀ (sel : Option String) (appId ty : String) (s : CoordState),
      jsOrS sel "" ≠ "" → appId ≠ "" → isTaskRunning appId s = true →
      handleStartAnalysis false sel appId ty s = StartDecision.alreadyRunning) ∧
    (∀ (appId : String) (projectId : Option String) (ty tid : String)
      (r : ErrResponse) (s : CoordState),
      r.status = 409 → r.existing_task_id = some tid → tid ≠ "" →
      (startTask appId projectId ty (SubmitResult.err (some r)) s).ret = Except.ok tid ∧
      (AList.get appId
        (startTask appId projectId ty (SubmitResult.err (some r)) s).state.runningTasks).map
          TaskRecord.taskId = some tid ∧
      (startTask appId projectId ty (SubmitResult.err (some r)) s).pollLaunch =
        some (tid, appId)) := by
  refine ⟨fun s h => (reachable_stateInv h).1, ?_, ?_⟩
  · intro sel appId ty s hsel happ hrun
    simp [handleStartAnalysis, hsel, happ, hrun]
  · intro appId projectId ty tid r s h409 hid hne
    obtain ⟨hret, hlaunch, _, hget⟩ :=
      startTask_conflict_adopt_aux appId projectId ty r tid s h409 hid hne
    refine ⟨hret, ?_, hlaunch⟩
    rw [hget]
    rfl

/-- Claim C2: over a polling lifecycle that starts at `pollerInit`, runs
through any prefix of canonical non-terminal responses (at most 149 of
them, so no timeout intervenes) and then observes a terminal response
(`success`, `failure` or `revoked`), the registry entry for the app id is
absent immediately afterwards, the chain schedules no further poll, and
exactly one notification event is dispatched for the whole lifecycle — a
`taskCompleted` for `success`, a `taskFailed` for `failure`/`revoked` — no
duplicates and no drops. -/
theorem terminal_poll_removes_and_fires_once (appId : String) (pre : List PollInput)
    (d : PollData) (s : CoordState)
    (hpre : ∀ r ∈ pre, isNonTerminal r = true) (hlen : pre.length ≤ 149)
    (hterm : normStatus d = "success" ∨ normStatus d = "failure" ∨
      normStatus d = "revoked") :
    AList.get appId
      (runPoll appId (pre ++ [PollInput.ok d]) pollerInit s).state.runningTasks = none ∧
    (runPoll appId (pre ++ [PollInput.ok d]) pollerInit s).cont = none ∧
    (runPoll appId (pre ++ [PollInput.ok d]) pollerInit s).events.length = 1 ∧
    (normStatus d = "success" →
      ∃ k, (runPoll appId (pre ++ [PollInput.ok d]) pollerInit s).events =
        [Event.taskCompleted appId d k]) ∧
    ((normStatus d = "failure" ∨ normStatus d = "revoked") →
      ∃ e k, (runPoll appId (pre ++ [PollInput.ok d]) pollerInit s).events =
        [Event.taskFailed appId e k]) := by
  have hcnt : pollerInit.pollCount + pre.length < 150 := by
    simp only [pollerInit]
    omega
  obtain ⟨he, hc, _, _, _⟩ :=
    runPoll_nonterminal_list appId pre pollerInit s hpre pollerInit_ok hcnt
  rw [runPoll_append_cont appId [PollInput.ok d] pre pollerInit s _ hc]
  have hsingle :
      ∀ (ps₁ : PollerState) (s₁ : CoordState),
        AList.get appId (runPoll appId [PollInput.ok d] ps₁ s₁).state.runningTasks = none ∧
        (runPoll appId [PollInput.ok d] ps₁ s₁).cont = none ∧
        (normStatus d = "success" →
          ∃ k, (runPoll appId [PollInput.ok d] ps₁ s₁).events =
            [Event.taskCompleted appId d k]) ∧
        ((normStatus d = "failure" ∨ normStatus d = "revoked") →
          ∃ e k, (runPoll appId [PollInput.ok d] ps₁ s₁).events =
            [Event.taskFailed appId e k]) ∧
        (runPoll appId [PollInput.ok d] ps₁ s₁).events.length = 1 := by
    intro ps₁ s₁
    rcases hterm with h | h
    · have hstep := pollStep_success_eq appId d ps₁ s₁ h
      have hsched : (pollStep appId (PollInput.ok d) ps₁ s₁).sched = none := by rw [hstep]
      rw [runPoll_cons_stop [] hsched]
      refine ⟨?_, rfl, ?_, ?_, ?_⟩
      · rw [hstep]
        exact AList.get_del_self _ _
      · intro _
        rw [hstep]
        exact ⟨_, handleTaskSuccess_events _ _ _⟩
      · intro hf
        rcases hf with hf | hf <;> rw [h] at hf <;> simp at hf
      · rw [hstep]
        rfl
    · have hstep := pollStep_terminalFail_eq appId d ps₁ s₁ h
      have hsched : (pollStep appId (PollInput.ok d) ps₁ s₁).sched = none := by rw [hstep]
      rw [runPoll_cons_stop [] hsched]
      refine ⟨?_, rfl, ?_, ?_, ?_⟩
      · rw [hstep]
        exact AList.get_del_self _ _
      · intro hs
        rcases h with h | h <;> rw [hs] at h <;> simp at h
      · intro _
        rw [hstep]
        exact ⟨_, _, handleTaskFailure_events _ _ _⟩
      · rw [hstep]
        rfl
  obtain ⟨hg, hcn, hsu, hfa, hone⟩ :=
    hsingle { pollCount := pollerInit.pollCount + pre.length,
              pollInterval := intervalAt (pollerInit.pollCount + pre.length) }
      (runPoll appId pre pollerInit s).state
  refine ⟨hg, hcn, ?_, ?_, ?_⟩
  · simp [he, hone]
  · intro h
    obtain ⟨k, hk⟩ := hsu h
    exact ⟨k, by simp [he, hk]⟩
  · intro h
    obtain ⟨e, k, hk⟩ := hfa h
    exact ⟨e, k, by simp [he, hk]⟩

/-- Claim C3: a task whose polled status stays non-terminal on every
iteration is still rescheduled after iteration 149 (no event, registry
entry still live, next poll pending with the chain locals at counter 149
and interval 5000 ms), and on exactly the 150th iteration the poller stops:
the registry entry is removed, no further poll is scheduled, and a single
`taskTimeout` event — distinct from a failure event — is dispatched. -/
theorem poll_timeout_boundary (appId : String) (d : PollData) (s : CoordState)
    (hnt : isNonTerminal (PollInput.ok d) = true) :
    (runPoll appId (List.replicate 149 (PollInput.ok d)) pollerInit s).events = [] ∧
    (runPoll appId (List.replicate 149 (PollInput.ok d)) pollerInit s).cont =
      some { pollCount := 149, pollInterval := 5000 } ∧
    AList.has appId
      (runPoll appId (List.replicate 149 (PollInput.ok d)) pollerInit s).state.runningTasks =
      AList.has appId s.runningTasks ∧
    AList.get appId
      (runPoll appId (List.replicate 150 (PollInput.ok d)) pollerInit s).state.runningTasks =
      none ∧
    (runPoll appId (List.replicate 150 (PollInput.ok d)) pollerInit s).cont = none ∧
    ∃ k, (runPoll appId (List.replicate 150 (PollInput.ok d)) pollerInit s).events =
      [Event.taskTimeout appId k] := by
  have hmem : ∀ r ∈ List.replicate 149 (PollInput.ok d), isNonTerminal r = true := by
    intro r hr
    rw [List.eq_of_mem_replicate hr]
    exact hnt
  have hcnt : pollerInit.pollCount + (List.replicate 149 (PollInput.ok d)).length < 150 := by
    simp [pollerInit]
  obtain ⟨he, hc, hh, _, _⟩ :=
    runPoll_nonterminal_list appId (List.replicate 149 (PollInput.ok d)) pollerInit s
      hmem pollerInit_ok hcnt
  have hc' : (runPoll appId (List.replicate 149 (PollInput.ok d)) pollerInit s).cont =
      some { pollCount := 149, pollInterval := 5000 } := by
    rw [hc]
    norm_num [pollerInit, intervalAt]
  refine ⟨he, hc', hh, ?_⟩
  have hrep : List.replicate 150 (PollInput.ok d) =
      List.replicate 149 (PollInput.ok d) ++ [PollInput.ok d] :=
    List.replicate_succ' 149 (PollInput.ok d)
  rw [hrep, runPoll_append_cont appId [PollInput.ok d]
    (List.replicate 149 (PollInput.ok d)) pollerInit s _ hc']
  have hstep := pollStep_timeout_eq appId d
    { pollCount := 149, pollInterval := 5000 }
    (runPoll appId (List.replicate 149 (PollInput.ok d)) pollerInit s).state hnt
    (by norm_num)
  have hsched : (pollStep appId (PollInput.ok d)
      { pollCount := 149, pollInterval := 5000 }
      (runPoll appId (List.replicate 149 (PollInput.ok d)) pollerInit s).state).sched =
      none := by rw [hstep]
  rw [runPoll_cons_stop [] hsched]
  refine ⟨?_, rfl, ?_⟩
  · rw [hstep]
    exact AList.get_del_self _ _
  · rw [hstep]
    simp only [he, List.nil_append]
    exact ⟨_, handleTaskTimeout_events _ _⟩

/-- Witness for claim C1 at concrete inputs: the initial registry has
distinct keys, a second submit for the live `app.demo` is blocked, and the
409 adoption of `t9` reuses that id. -/
theorem at_most_one_live_task_witness :
    AList.NodupKeys initState.runningTasks ∧
    handleStartAnalysis false (some "p1") "app.demo" "quick" demoLive =
      StartDecision.alreadyRunning ∧
    ((startTask "app.demo" (some "p1") "quick"
        (SubmitResult.err (some demoConflict)) initState).ret = Except.ok "t9" ∧
      (AList.get "app.demo"
        (startTask "app.demo" (some "p1") "quick"
          (SubmitResult.err (some demoConflict)) initState).state.runningTasks).map
        TaskRecord.taskId = some "t9" ∧
      (startTask "app.demo" (some "p1") "quick"
        (SubmitResult.err (some demoConflict)) initState).pollLaunch =
        some ("t9", "app.demo")) :=
  ⟨at_most_one_live_task.1 initState Reachable.init,
   at_most_one_live_task.2.1 (some "p1") "app.demo" "quick" demoLive
     (by decide) (by decide) (by decide),
   at_most_one_live_task.2.2 "app.demo" (some "p1") "quick" "t9" demoConflict
     initState (by decide) (by decide) (by decide)⟩

/-- Witness for claim C2: one `progress` response followed by a `success`
response, run from `pollerInit` against the live demo state. -/
theorem terminal_poll_removes_and_fires_once_witness :
    AList.get "app.demo"
      (runPoll "app.demo"
        ([PollInput.ok demoProgressData] ++ [PollInput.ok demoSuccessData])
        pollerInit demoLive).state.runningTasks = none ∧
    (runPoll "app.demo"
      ([PollInput.ok demoProgressData] ++ [PollInput.ok demoSuccessData])
      pollerInit demoLive).cont = none ∧
    (runPoll "app.demo"
      ([PollInput.ok demoProgressData] ++ [PollInput.ok demoSuccessData])
      pollerInit demoLive).events.length = 1 ∧
    (normStatus demoSuccessData = "success" →
      ∃ k, (runPoll "app.demo"
        ([PollInput.ok demoProgressData] ++ [PollInput.ok demoSuccessData])
        pollerInit demoLive).events =
          [Event.taskCompleted "app.demo" demoSuccessData k]) ∧
    ((normStatus demoSuccessData = "failure" ∨ normStatus demoSuccessData = "revoked") →
      ∃ e k, (runPoll "app.demo"
        ([PollInput.ok demoProgressData] ++ [PollInput.ok demoSuccessData])
        pollerInit demoLive).events = [Event.taskFailed "app.demo" e k]) :=
  terminal_poll_removes_and_fires_once "app.demo" [PollInput.ok demoProgressData]
    demoSuccessData demoLive (by decide) (by decide) (by decide)

/-- Witness for claim C3: a chain fed 149 and then 150 `progress` responses
against the live demo state. -/
theorem poll_timeout_boundary_witness :
    (runPoll "app.demo" (List.replicate 149 (PollInput.ok demoProgressData))
      pollerInit demoLive).events = [] ∧
    (runPoll "app.demo" (List.replicate 149 (PollInput.ok demoProgressData))
      pollerInit demoLive).cont = some { pollCount := 149, pollInterval := 5000 } ∧
    AList.has "app.demo"
      (runPoll "app.demo" (List.replicate 149 (PollInput.ok demoProgressData))
        pollerInit demoLive).state.runningTasks =
      AList.has "app.demo" demoLive.runningTasks ∧
    AList.get "app.demo"
      (runPoll "app.demo" (List.replicate 150 (PollInput.ok demoProgressData))
        pollerInit demoLive).state.runningTasks = none ∧
    (runPoll "app.demo" (List.replicate 150 (PollInput.ok demoProgressData))
      pollerInit demoLive).cont = none ∧
    ∃ k, (runPoll "app.demo" (List.replicate 150 (PollInput.ok demoProgressData))
      pollerInit demoLive).events = [Event.taskTimeout "app.demo" k] :=
  poll_timeout_boundary "app.demo" demoProgressData demoLive (by decide)

/-- Witness for claim C4: the locals are consistent initially, one
scheduled step from counter 10 lands at counter 11 with a 3000 ms interval,
the step from counter 30 schedules 5000 ms, and the three tiers evaluate to
2000/3000/5000 at iterations 5, 15 and 31. -/
theorem poll_backoff_schedule_witness :
    PollerOk pollerInit ∧
    (PollerOk { pollCount := 11, pollInterval := 3000 } ∧
      (3000 : ℕ) = ({ pollCount := 11, pollInterval := 3000 } : PollerState).pollInterval ∧
      ({ pollCount := 11, pollInterval := 3000 } : PollerState).pollCount =
        ({ pollCount := 10, pollInterval := 2000 } : PollerState).pollCount + 1) ∧
    (pollStep "app.demo" (PollInput.ok demoProgressData)
        { pollCount := 30, pollInterval := 3000 } demoLive).sched =
      some (intervalAt 31, { pollCount := 31, pollInterval := intervalAt 31 }) ∧
    (intervalAt 5 = 2000 ∧ intervalAt 15 = 3000 ∧ intervalAt 31 = 5000) :=
  ⟨poll_backoff_schedule.1,
   poll_backoff_schedule.2.1 "app.demo" (PollInput.ok demoProgressData)
     { pollCount := 10, pollInterval := 2000 } demoLive 3000
     { pollCount := 11, pollInterval := 3000 } (by decide) (by rfl),
   poll_backoff_schedule.2.2.1 "app.demo" demoProgressData
     { pollCount := 30, pollInterval := 3000 } demoLive (by rfl) (by decide) (by decide),
   ⟨(poll_backoff_schedule.2.2.2 5).1 (by decide) (by decide),
    (poll_backoff_schedule.2.2.2 15).2.1 (by decide) (by decide),
    (poll_backoff_schedule.2.2.2 31).2.2 (by decide)⟩⟩

/-- Witness for claim C5: a malformed progress field keeps the stored 37, a
value of 150 is clamped to 100, and the reachable `demoStart` record sits
within bounds. -/
theorem progress_merge_safety_witness :
    (AList.get "app.demo"
      (mergeUpdate "app.demo" demoNoProgressData "progress" demoLive).runningTasks).map
        TaskRecord.progress = some demoRecord.progress ∧
    ((AList.get "app.demo"
      (mergeUpdate "app.demo" demoOverData "progress" demoLive).runningTasks).map
        TaskRecord.progress = some (max 0 (min 100 (150 : ℚ))) ∧
      0 ≤ max 0 (min 100 (150 : ℚ)) ∧ max 0 (min 100 (150 : ℚ)) ≤ 100) ∧
    (0 ≤ demoStartRecord.progress ∧ demoStartRecord.progress ≤ 100) :=
  ⟨progress_merge_safety.1 "app.demo" demoNoProgressData "progress" demoLive
     demoRecord (by decide) (by decide),
   progress_merge_safety.2.1 "app.demo" demoOverData "progress" demoLive
     demoRecord 150 (by decide) (by decide),
   progress_merge_safety.2.2 demoStart
     (Reachable.step Reachable.init
       (Step.start "app.demo" (some "p1") "quick" (SubmitResult.ok "t1") initState))
     ("app.demo", demoStartRecord) (by decide)⟩

/-- Witness for claim C6: the spec scenario — HTTP 409 carrying
`existingTaskId "t9"`, `taskStatus "progress"`, `taskKind "full"` — adopts
`t9` with kind `full` and resumes polling it. -/
theorem startTask_conflict_adoption_witness :
    (startTask "app.demo" (some "p1") "quick"
      (SubmitResult.err (some demoConflict)) initState).ret = Except.ok "t9" ∧
    (startTask "app.demo" (some "p1") "quick"
      (SubmitResult.err (some demoConflict)) initState).pollLaunch =
      some ("t9", "app.demo") ∧
    (startTask "app.demo" (some "p1") "quick"
      (SubmitResult.err (some demoConflict)) initState).state.globalLoading = true ∧
    AList.get "app.demo"
        (startTask "app.demo" (some "p1") "quick"
          (SubmitResult.err (some demoConflict)) initState).state.runningTasks =
      some
        { taskId := "t9", appId := "app.demo", projectId := some "p1",
          analysisType := "full", status := "progress", progress := 0,
          step := "Analyzing reviews...", currentReviews := none,
          totalReviews := none, estimatedDuration := 300000 } :=
  startTask_conflict_adoption "app.demo" (some "p1") "quick" demoConflict "t9"
    initState (by decide) (by decide) (by decide)

/-- Witness for claim C8 at concrete inputs: a success poll writes the
payload, a progress poll, transport error and submit leave the store
unchanged, and `clearTaskResult` touches only its own key. -/
theorem result_store_frame_witness :
    ((pollStep "app.demo" (PollInput.ok demoSuccessData) pollerInit demoLive).state.taskResults =
        AList.set "app.demo" demoSuccessData demoLive.taskResults ∧
      AList.get "app.demo"
        (pollStep "app.demo" (PollInput.ok demoSuccessData) pollerInit demoLive).state.taskResults =
        some demoSuccessData) ∧
    (pollStep "app.demo" (PollInput.ok demoProgressData) pollerInit demoLive).state.taskResults =
      demoLive.taskResults ∧
    (pollStep "app.demo" (PollInput.err "boom") pollerInit demoLive).state.taskResults =
      demoLive.taskResults ∧
    (startTask "app.demo" (some "p1") "quick" (SubmitResult.ok "t1") demoLive).state.taskResults =
      demoLive.taskResults ∧
    ((clearTaskResult "app.demo" demoLive).taskResults =
        AList.del "app.demo" demoLive.taskResults ∧
      (clearTaskResult "app.demo" demoLive).runningTasks = demoLive.runningTasks ∧
      (clearTaskResult "app.demo" demoLive).globalLoading = demoLive.globalLoading ∧
      AList.get "app.demo" (clearTaskResult "app.demo" demoLive).taskResults = none ∧
      AList.get "other" (clearTaskResult "app.demo" demoLive).taskResults =
        AList.get "other" demoLive.taskResults) :=
  ⟨result_store_frame.1 "app.demo" demoSuccessData pollerInit demoLive (by decide),
   result_store_frame.2.1 "app.demo" demoProgressData pollerInit demoLive (by decide),
   result_store_frame.2.2.1 "app.demo" "boom" pollerInit demoLive,
   result_store_frame.2.2.2.1 "app.demo" (some "p1") "quick" (SubmitResult.ok "t1") demoLive,
   ⟨(result_store_frame.2.2.2.2 "app.demo" demoLive).1,
    (result_store_frame.2.2.2.2 "app.demo" demoLive).2.1,
    (result_store_frame.2.2.2.2 "app.demo" demoLive).2.2.1,
    (result_store_frame.2.2.2.2 "app.demo" demoLive).2.2.2.1,
    (result_store_frame.2.2.2.2 "app.demo" demoLive).2.2.2.2 "other" (by decide)⟩⟩

/-- Witness for claim C10: a `Retrying` status against the live demo state
stalls the chain — no events, no reschedule, record still live, loading
flag and result store untouched. -/
theorem unknown_status_stalls_witness :
    (runPoll "app.demo" (PollInput.ok demoWeirdData :: []) pollerInit demoLive).events = [] ∧
    (runPoll "app.demo" (PollInput.ok demoWeirdData :: []) pollerInit demoLive).cont = none ∧
    AList.has "app.demo"
      (runPoll "app.demo" (PollInput.ok demoWeirdData :: []) pollerInit demoLive).state.runningTasks =
      AList.has "app.demo" demoLive.runningTasks ∧
    (runPoll "app.demo" (PollInput.ok demoWeirdData :: []) pollerInit demoLive).state.globalLoading =
      demoLive.globalLoading ∧
    (runPoll "app.demo" (PollInput.ok demoWeirdData :: []) pollerInit demoLive).state.taskResults =
      demoLive.taskResults :=
  unknown_status_stalls "app.demo" demoWeirdData pollerInit demoLive []
    (by decide) (by decide) (by decide) (by decide) (by decide) (by decide)
